import Mathlib

/-!
Shallow embedding of the hybrid search and incremental rendering engine of the
3d-model-extraction webapp, together with theorems settling the frozen claims
about it.

Sources embedded here:
- the VirtualizedGrid component (threshold decision, responsive column table,
  visible-window computation, total scroll height and offset transform);
- the useHybridSearch hook (simple and ranked search paths, abort-controller
  discipline, pagination construction, loadMore, query-length routing);
- the ranked search API route (server-side pagination object);
- the usePrefetch hook (TTL-bounded sibling cache keyed by product_slug-brand);
- the link-health batch job (classification, dry-run policy, batched upsert).

Conventions: record identities are abstracted as natural numbers; machine
timestamps are naturals counting milliseconds; JavaScript number arithmetic on
the small nonnegative quantities involved (lengths, pixel offsets, counts,
timestamps) is modelled with Nat and Int, with Int used where the source can
produce a negative value.  Asynchronous resolution of a store call is modelled
by passing the call outcome as an explicit argument; interleavings of
overlapping requests are modelled by an explicit event trace.
-/

namespace ModelWebapp

/-! ## VirtualizedGrid (src/webapp/src/components/VirtualizedGrid.tsx) -/

/-- Math.ceil(a / b) for naturals with b > 0 (used for totalRows and
totalPages computations, which the source writes as Math.ceil of a division). -/
def ceilDivNat (a b : Nat) : Nat := (a + b - 1) / b

/-- ITEM_HEIGHT = 280, the approximate height of each card. -/
def ITEM_HEIGHT : Int := 280

/-- BUFFER_SIZE = 5, number of items rendered outside the viewport. -/
def BUFFER_SIZE : Int := 5

/-- VIRTUALIZATION_THRESHOLD = 200, start virtualizing after this many items. -/
def VIRTUALIZATION_THRESHOLD : Nat := 200

/-- The responsive column count: a step function of the container width,
from the gridConfig useMemo in VirtualizedGrid. -/
def gridCols (containerWidth : Nat) : Nat :=
  if containerWidth < 640 then 2
  else if containerWidth < 768 then 3
  else if containerWidth < 1024 then 4
  else if containerWidth < 1280 then 5
  else 6

/-- The gap is 20 at every breakpoint of the gridConfig table. -/
def gridGap : Nat := 20

/-- totalRows = Math.ceil(files.length / gridConfig.cols). -/
def totalRows (filesLen containerWidth : Nat) : Nat :=
  ceilDivNat filesLen (gridCols containerWidth)

/-- totalHeight = totalRows * ITEM_HEIGHT + (totalRows - 1) * gap.  This is an
integer because the source expression evaluates to -20 when totalRows = 0. -/
def totalHeight (filesLen containerWidth : Nat) : Int :=
  (totalRows filesLen containerWidth : Int) * ITEM_HEIGHT
    + ((totalRows filesLen containerWidth : Int) - 1) * (gridGap : Int)

/-- The render-mode decision: the component returns the plain (fully rendered)
grid when files.length <= VIRTUALIZATION_THRESHOLD, and the windowed layout
otherwise. -/
def rendersFully (filesLen : Nat) : Bool :=
  decide (filesLen ≤ VIRTUALIZATION_THRESHOLD)

/-- Math.ceil(a / b) on integers, for b > 0: (a + b - 1) / b with Lean integer
division, which floors for a positive divisor. -/
def intCeilDiv (a b : Int) : Int := (a + b - 1) / b

/-- startIndex = Math.max(0, Math.floor(scrollTop / ITEM_HEIGHT) - BUFFER_SIZE).
Lean integer division by the positive constant 280 is exactly Math.floor of the
real quotient. -/
def startIndex (scrollTop : Int) : Int :=
  max 0 (scrollTop / ITEM_HEIGHT - BUFFER_SIZE)

/-- endIndex = Math.min(files.length,
Math.ceil((scrollTop + containerHeight) / ITEM_HEIGHT) + BUFFER_SIZE). -/
def endIndex (filesLen : Nat) (scrollTop containerHeight : Int) : Int :=
  min (filesLen : Int) (intCeilDiv (scrollTop + containerHeight) ITEM_HEIGHT + BUFFER_SIZE)

/-- offsetY = startIndex * ITEM_HEIGHT: the absolute top position of the
materialized slice in windowed mode. -/
def offsetY (scrollTop : Int) : Int := startIndex scrollTop * ITEM_HEIGHT

/-- Modelled from the spec (section 4.4 positioning invariant): the offset the
spec asserts, namely the ROW containing startIndex times the row height.  Kept
separate from offsetY, which is translated from the source, so the two can be
compared. -/
def specOffsetY (cols : Nat) (scrollTop : Int) : Int :=
  (startIndex scrollTop / (cols : Int)) * ITEM_HEIGHT

/-- Modelled from the spec (section 4.4 positioning invariant): total
scrollable height totalRows * rowHeight + (totalRows - 1) * gap with
totalRows = ceil(totalItems / columns). -/
def specTotalHeight (totalItems cols gap : Nat) : Int :=
  (ceilDivNat totalItems cols : Int) * ITEM_HEIGHT
    + ((ceilDivNat totalItems cols : Int) - 1) * (gap : Int)

/-! ## useHybridSearch (hook source, src/unnamed/part_009) -/

/-- The pagination record held in useHybridSearch state and produced by the
search API route.  (The route response also carries a limit field, which the
hook stores verbatim but no claim mentions; it is omitted.) -/
structure Pagination where
  page : Nat
  totalPages : Nat
  totalCount : Nat
  hasNext : Bool
  hasPrev : Bool
deriving DecidableEq, Repr

/-- The useState initial pagination value of useHybridSearch. -/
def initialPagination : Pagination :=
  { page := 1, totalPages := 1, totalCount := 0, hasNext := false, hasPrev := false }

/-- The visible state of the hook: files, loading, error, pagination. -/
structure SearchState where
  files : List Nat
  loading : Bool
  error : Option String
  pagination : Pagination
deriving DecidableEq, Repr

/-- Initial hook state: empty file list, not loading, no error,
initialPagination. -/
def initialState : SearchState :=
  { files := [], loading := false, error := none, pagination := initialPagination }

/-- One setState call performed by the hook. -/
inductive Write where
  | setFiles (fs : List Nat)
  | setLoading (b : Bool)
  | setError (e : Option String)
  | setPagination (p : Pagination)
deriving DecidableEq, Repr

/-- Apply one setState call. -/
def applyWrite (s : SearchState) : Write → SearchState
  | Write.setFiles fs => { s with files := fs }
  | Write.setLoading b => { s with loading := b }
  | Write.setError e => { s with error := e }
  | Write.setPagination p => { s with pagination := p }

/-- Apply a synchronous block of setState calls in order. -/
def applyWrites (s : SearchState) (ws : List Write) : SearchState :=
  ws.foldl applyWrite s

/-- One row returned by the search_files RPC: a file payload plus the
window total_count repeated on every row. -/
structure RpcRow where
  total_count : Nat
  file : Nat
deriving DecidableEq, Repr

/-- How the awaited store calls of one simpleSearch invocation settle.
rpcOk: the search_files RPC resolves with rows.  fallbackOk: the RPC rejects,
and the fallback filtered query and count query both resolve.  fallbackErr:
the RPC rejects and the fallback path throws.  None of these supabase builder
calls is given the abort signal in the source, so the outcome is independent
of whether the controller of the request has been aborted. -/
inductive SimpleOutcome where
  | rpcOk (rows : List RpcRow)
  | fallbackOk (rows : List Nat) (count : Nat)
  | fallbackErr (msg : String)
deriving DecidableEq, Repr

/-- The synchronous prefix of simpleSearch and rankedSearch:
setLoading(true); setError(null).  (The abort of the previous controller and
installation of a fresh one are tracked by the trace semantics below.) -/
def searchStartWrites : List Write :=
  [Write.setLoading true, Write.setError none]

/-- The setState calls simpleSearch performs once its store calls settle,
translated branch by branch from the source.  rpcOk with no rows: empty files
and an all-zero pagination.  rpcOk with rows: totalCount from the first row
(the JS reads data[0]?.total_count || 0), totalPages = Math.ceil(totalCount/20),
hasNext = page < totalPages, hasPrev = page > 1.  fallbackOk: same shape from
the fallback count.  fallbackErr: the catch sets the error message (the
err.name check cannot see an AbortError here because no supabase call carries
the signal).  Every branch ends with the finally setLoading(false). -/
def simpleResolveWrites (page : Nat) : SimpleOutcome → List Write
  | SimpleOutcome.rpcOk rows =>
    if rows.isEmpty then
      [Write.setFiles [],
       Write.setPagination
        { page := page, totalPages := 0, totalCount := 0, hasNext := false, hasPrev := false },
       Write.setLoading false]
    else
      let totalCount := ((rows.head?).map RpcRow.total_count).getD 0
      let totalPages := ceilDivNat totalCount 20
      [Write.setFiles (rows.map RpcRow.file),
       Write.setPagination
        { page := page, totalPages := totalPages, totalCount := totalCount,
          hasNext := decide (page < totalPages), hasPrev := decide (1 < page) },
       Write.setLoading false]
  | SimpleOutcome.fallbackOk rows count =>
      let totalPages := ceilDivNat count 20
      [Write.setFiles rows,
       Write.setPagination
        { page := page, totalPages := totalPages, totalCount := count,
          hasNext := decide (page < totalPages), hasPrev := decide (1 < page) },
       Write.setLoading false]
  | SimpleOutcome.fallbackErr msg =>
      [Write.setError (some msg), Write.setLoading false]

/-- The parsed JSON body of a ranked search response. -/
structure RankedResponse where
  ok : Bool
  results : Option (List Nat)
  pagination : Option Pagination
  errMsg : Option String
deriving DecidableEq, Repr

/-- How one rankedSearch fetch settles when its signal has not been aborted:
either a parsed response or a non-abort network rejection. -/
inductive RankedOutcome where
  | resp (r : RankedResponse)
  | netErr (msg : String)
deriving DecidableEq, Repr

/-- The data.pagination || fallback object of rankedSearch. -/
def defaultRankedPagination : Pagination :=
  { page := 1, totalPages := 1, totalCount := 0, hasNext := false, hasPrev := false }

/-- The setState calls rankedSearch performs at resolution.  Unlike
simpleSearch, its fetch IS given abortControllerRef.current.signal, so when
the controller was aborted while the request was pending the awaited fetch
(or response.json()) rejects with an AbortError; the catch skips setError for
that name and only the finally setLoading(false) runs.  Otherwise: a response
with ok leads to setFiles(data.results || []) and setPagination(data.pagination
|| default); a non-ok response throws an Error carrying data.error or the default message
which the catch records; a network rejection is recorded likewise. -/
def rankedResolveWrites (aborted : Bool) (out : RankedOutcome) : List Write :=
  if aborted then [Write.setLoading false]
  else
    match out with
    | RankedOutcome.resp r =>
      if r.ok then
        [Write.setFiles (r.results.getD []),
         Write.setPagination (r.pagination.getD defaultRankedPagination),
         Write.setLoading false]
      else
        [Write.setError (some (r.errMsg.getD "Search failed")), Write.setLoading false]
    | RankedOutcome.netErr msg =>
      [Write.setError (some msg), Write.setLoading false]

/-- One launched (post-debounce) request: which path it took, the page it
asked for, and how its store call settles. -/
inductive Request where
  | simple (page : Nat) (out : SimpleOutcome)
  | ranked (page : Nat) (out : RankedOutcome)
deriving DecidableEq, Repr

/-- Scheduler state for a trace of overlapping requests: the visible hook
state, the set of request ids whose abort controller has been signalled, and
the id owning abortControllerRef.current. -/
structure RunState where
  vis : SearchState
  abortedIds : List Nat
  current : Option Nat
deriving DecidableEq, Repr

/-- A trace event: the synchronous start prefix of request i, or the
settlement of the store call of request i together with all state writes that
follow it synchronously. -/
inductive Ev where
  | start (i : Nat)
  | resolve (i : Nat)
deriving DecidableEq, Repr

/-- Small-step semantics of the hook under an interleaving of requests.
start i: abort the controller of the currently installed request (both search
paths begin with abortControllerRef.current.abort()), install the
fresh controller of request i, and run the synchronous prefix setLoading(true);
setError(null).  resolve i: the awaited store call of request i settles; i is
superseded exactly when its id is in abortedIds; the writes of the matching
path are applied as one synchronous block. -/
def stepEv (reqs : List Request) (rs : RunState) : Ev → RunState
  | Ev.start i =>
    let aborted :=
      match rs.current with
      | some j => j :: rs.abortedIds
      | none => rs.abortedIds
    { vis := applyWrites rs.vis searchStartWrites, abortedIds := aborted, current := some i }
  | Ev.resolve i =>
    let ab := rs.abortedIds.contains i
    let ws :=
      match reqs.get? i with
      | some (Request.simple page out) => simpleResolveWrites page out
      | some (Request.ranked _ out) => rankedResolveWrites ab out
      | none => []
    { rs with vis := applyWrites rs.vis ws }

/-- Run a trace from the initial hook state. -/
def runTrace (reqs : List Request) (trace : List Ev) : RunState :=
  trace.foldl (stepEv reqs) { vis := initialState, abortedIds := [], current := none }

/-- The two downstream paths of the debounced search body. -/
inductive SearchPath where
  | simple
  | ranked
deriving DecidableEq, Repr

/-- The routing decision of the search body that survives the 300ms debounce:
queries shorter than 3 characters go to simpleSearch, others to rankedSearch. -/
def route (q : String) : SearchPath :=
  if q.length < 3 then SearchPath.simple else SearchPath.ranked

/-- loadMore: when pagination.hasNext holds and no request is loading, it
issues a search for pagination.page + 1 on the path selected by the query
length, and the state becomes whatever that completed search produces; the
model runs the request to completion with the given outcomes.  Otherwise it is
a no-op. -/
def loadMore (st : SearchState) (qLen : Nat)
    (outS : SimpleOutcome) (outR : RankedOutcome) : SearchState :=
  if st.pagination.hasNext && !st.loading then
    let nextPage := st.pagination.page + 1
    if qLen < 3 then
      applyWrites (applyWrites st searchStartWrites) (simpleResolveWrites nextPage outS)
    else
      applyWrites (applyWrites st searchStartWrites) (rankedResolveWrites false outR)
  else st

/-- The pagination object built by the ranked search API route
(src/webapp/src/app/api/search GET): an all-zero object when the RPC returns
no rows, otherwise totalCount from the first row, totalPages =
Math.ceil(totalCount / limit), hasNext = page < totalPages,
hasPrev = page > 1.  The hook always calls it with limit = 20. -/
def searchRoutePagination (page limit : Nat) (rows : List RpcRow) : Pagination :=
  if rows.isEmpty then
    { page := page, totalPages := 0, totalCount := 0, hasNext := false, hasPrev := false }
  else
    let totalCount := ((rows.head?).map RpcRow.total_count).getD 0
    let totalPages := ceilDivNat totalCount limit
    { page := page, totalPages := totalPages, totalCount := totalCount,
      hasNext := decide (page < totalPages), hasPrev := decide (1 < page) }

/-- The pagination law stated by the spec: totalPages = ceil(totalCount / 20)
and hasNext = (page < totalPages). -/
def paginationLawful (p : Pagination) : Prop :=
  p.totalPages = ceilDivNat p.totalCount 20 ∧ p.hasNext = decide (p.page < p.totalPages)

/-! ## usePrefetch (hook source, src/unnamed/part_009) -/

/-- PREFETCH_CACHE_DURATION = 5 * 60 * 1000 milliseconds. -/
def PREFETCH_CACHE_DURATION : Nat := 5 * 60 * 1000

/-- One value of the module-level prefetchCache object: sibling list plus the
Date.now() at which it was stored. -/
structure CacheEntry where
  data : List Nat
  timestamp : Nat
deriving DecidableEq, Repr

/-- The prefetchCache object, as an association list keyed by the
product_slug-brand string. -/
def cacheLookup (c : List (String × CacheEntry)) (k : String) : Option CacheEntry :=
  (c.find? (fun p => p.1 == k)).map Prod.snd

/-- Keyed assignment into the cache object: overwrites any entry at the key. -/
def cacheInsert (c : List (String × CacheEntry)) (k : String) (v : CacheEntry) :
    List (String × CacheEntry) :=
  (k, v) :: c.filter (fun p => !(p.1 == k))

/-- The fields of a file record that prefetchSiblingFiles consults; the rest
of the record does not influence it. -/
structure PFile where
  sha256 : Nat
  brand : String
  product_slug : Option String
deriving DecidableEq, Repr

/-- JavaScript falsiness of an optional string field: undefined and the empty
string are falsy, every other string is truthy. -/
def jsStrFalsy : Option String → Bool
  | none => true
  | some s => s == ""

/-- How the awaited sibling query settles: rows, or a rejection whose message
the catch logs. -/
inductive FetchOutcome where
  | ok (rows : List Nat)
  | err (msg : String)
deriving DecidableEq, Repr

/-- What one prefetchSiblingFiles call produces: the value it returns
(none models the undefined of the early return), the cache afterwards, and
whether a store call was issued. -/
structure PrefetchResult where
  returned : Option (List Nat)
  cache : List (String × CacheEntry)
  fetched : Bool
deriving DecidableEq, Repr

/-- The try block of prefetchSiblingFiles: issue the sibling query; on rows,
store them in the cache under the key with the current Date.now() and return
them; on rejection, log and return [] without touching the cache. -/
def prefetchFetch (cache : List (String × CacheEntry)) (cacheKey : String) (now : Nat) :
    FetchOutcome → PrefetchResult
  | FetchOutcome.ok rows =>
    { returned := some rows,
      cache := cacheInsert cache cacheKey { data := rows, timestamp := now },
      fetched := true }
  | FetchOutcome.err _ =>
    { returned := some [], cache := cache, fetched := true }

/-- prefetchSiblingFiles: return immediately when product_slug or brand is
falsy; otherwise look up the product_slug-brand key and serve the entry when
Date.now() - timestamp < PREFETCH_CACHE_DURATION; otherwise fetch.  (With Nat
timestamps, now - timestamp is truncated subtraction, which agrees with the JS
comparison: a clock earlier than the stored stamp yields a negative JS
difference and a zero Nat difference, both below the duration.) -/
def prefetchSiblingFiles (cache : List (String × CacheEntry)) (file : PFile)
    (now : Nat) (out : FetchOutcome) : PrefetchResult :=
  if jsStrFalsy file.product_slug || (file.brand == "") then
    { returned := none, cache := cache, fetched := false }
  else
    let cacheKey := file.product_slug.getD "" ++ "-" ++ file.brand
    match cacheLookup cache cacheKey with
    | some cached =>
      if now - cached.timestamp < PREFETCH_CACHE_DURATION then
        { returned := some cached.data, cache := cache, fetched := false }
      else prefetchFetch cache cacheKey now out
    | none => prefetchFetch cache cacheKey now out

/-- prefetchOnHover invokes prefetchSiblingFiles immediately. -/
def prefetchOnHover (cache : List (String × CacheEntry)) (file : PFile)
    (now : Nat) (out : FetchOutcome) : PrefetchResult :=
  prefetchSiblingFiles cache file now out

/-- prefetchOnFocus schedules a 100ms timeout whose callback invokes
prefetchSiblingFiles; this models the callback firing. -/
def prefetchOnFocusFire (cache : List (String × CacheEntry)) (file : PFile)
    (now : Nat) (out : FetchOutcome) : PrefetchResult :=
  prefetchSiblingFiles cache file now out

/-! ## Link health job (src/webapp/src/app/api/jobs/link-health/route.ts) -/

/-- The fields of a files row the job reads. -/
structure LHFile where
  sha256 : Nat
  source_url : String
deriving DecidableEq, Repr

/-- How the HEAD request of checkLinkHealth settles: an HTTP status, the
10-second timeout abort, or another rejection (invalid URL or transport
failure), whose message is preserved. -/
inductive CheckOutcome where
  | status (code : Nat)
  | timeoutAbort
  | transportErr (msg : String)
deriving DecidableEq, Repr

/-- checkLinkHealth: an empty URL is refused up front; a status in [200, 400)
is ok; the AbortError of the timeout is reported as Request timeout; any other
rejection keeps its message.  It never throws: every path returns a value. -/
def checkLinkHealth (url : String) (out : CheckOutcome) : Bool × Option String :=
  if url == "" then (false, some "No URL provided")
  else
    match out with
    | CheckOutcome.status code => (decide (200 ≤ code) && decide (code < 400), none)
    | CheckOutcome.timeoutAbort => (false, some "Request timeout")
    | CheckOutcome.transportErr msg => (false, some msg)

/-- One element of the results array the job accumulates. -/
structure Classification where
  sha256 : Nat
  source_url : String
  link_health : String
  error : Option String
deriving DecidableEq, Repr

/-- One element of the updates array handed to the batched upsert. -/
structure UpdateRow where
  sha256 : Nat
  link_health : String
  updated_at : Nat
deriving DecidableEq, Repr

/-- The per-file loop of the job: push a classification for every file, and,
when not in dry-run, also push an update row.  checkLinkHealth is total, so the
catch branch of the loop (which would bump errorCount) is unreachable and the
errors counter stays 0.  The per-iteration Date.now() of updated_at is
modelled with one clock value. -/
def scanFiles (now : Nat) (dryRun : Bool) :
    List (LHFile × CheckOutcome) → List Classification × List UpdateRow
  | [] => ([], [])
  | fo :: rest =>
    let r := checkLinkHealth fo.1.source_url fo.2
    let cls : Classification :=
      { sha256 := fo.1.sha256, source_url := fo.1.source_url,
        link_health := if r.1 then "ok" else "broken", error := r.2 }
    let prev := scanFiles now dryRun rest
    (cls :: prev.1,
     if dryRun then prev.2
     else { sha256 := fo.1.sha256, link_health := if r.1 then "ok" else "broken",
            updated_at := now } :: prev.2)

/-- The response body of the job.  emptyBatch: the early return when no files
need checking, which carries only the message and zero counters (in particular
no results field).  completed: checked, updated, ok, broken, errors counters
plus the results list present exactly when dryRun.  storeFailure: the 500
returned when the batched upsert rejects. -/
inductive LHResponse where
  | emptyBatch
  | completed (checked updated okCount brokenCount errors : Nat)
      (results : Option (List Classification))
  | storeFailure (status : Nat) (msg : String)
deriving DecidableEq, Repr

/-- Count of ok classifications, as the source computes it from results. -/
def linkOkCount (results : List Classification) : Nat :=
  results.countP (fun r => r.link_health == "ok")

/-- Count of broken classifications. -/
def linkBrokenCount (results : List Classification) : Nat :=
  results.countP (fun r => r.link_health == "broken")

/-- The POST handler after the eligible files have been fetched: the empty
batch returns early; otherwise the scan runs, then, when not in dry-run and
the updates array is nonempty, the single batched upsert is issued (its
argument list is recorded as the second component) and a failure of that
upsert turns the whole run into a 500; the final response carries the results
list only in dry-run mode.  upsertOk tells how the external store answers the
upsert. -/
def POSTLinkHealth (files : List (LHFile × CheckOutcome)) (dryRun : Bool)
    (now : Nat) (upsertOk : Bool) : LHResponse × List (List UpdateRow) :=
  match files with
  | [] => (LHResponse.emptyBatch, [])
  | f :: fs =>
    let scanned := scanFiles now dryRun (f :: fs)
    let results := scanned.1
    let updates := scanned.2
    if !dryRun && !updates.isEmpty then
      if upsertOk then
        (LHResponse.completed (f :: fs).length updates.length
          (linkOkCount results) (linkBrokenCount results) 0
          (if dryRun then some results else none), [updates])
      else
        (LHResponse.storeFailure 500 "Failed to update files", [updates])
    else
      (LHResponse.completed (f :: fs).length 0
        (linkOkCount results) (linkBrokenCount results) 0
        (if dryRun then some results else none), [])

/-- The results field of a response: absent on the early return and on the
500, the stored option on a completed run. -/
def resultsField : LHResponse → Option (List Classification)
  | LHResponse.emptyBatch => none
  | LHResponse.completed _ _ _ _ _ r => r
  | LHResponse.storeFailure _ _ => none

/-! ## Theorems settling the claims -/

/-- C4 counterexample: the claim asserts that at or above 200 total items the
grid switches to windowed rendering, yet the source condition
files.length <= VIRTUALIZATION_THRESHOLD renders 200 items fully, so the
universal form of the claim fails at totalItems = 200. -/
theorem c4_counterexample :
    rendersFully 200 = true ∧ ¬ (∀ n : Nat, 200 ≤ n → rendersFully n = false) := by
  constructor
  · decide
  · intro h
    exact absurd (h 200 (le_refl 200)) (by decide)

/-- C4 amended: VirtualizedGrid renders all items directly when the total item
count is at or below 200 and switches to windowed rendering strictly above
200; in particular 200 renders fully and 201 uses windowed mode. -/
theorem c4_threshold :
    (∀ n : Nat, n ≤ 200 → rendersFully n = true) ∧
    (∀ n : Nat, 200 < n → rendersFully n = false) ∧
    rendersFully 200 = true ∧ rendersFully 201 = false := by
  refine ⟨fun n h => ?_, fun n h => ?_, by decide, by decide⟩
  · simp [rendersFully, VIRTUALIZATION_THRESHOLD, h]
  · simp [rendersFully, VIRTUALIZATION_THRESHOLD]
    omega

/-- C4 witness: the amended threshold policy at the concrete counts 120
and 250. -/
theorem c4_witness : rendersFully 120 = true ∧ rendersFully 250 = false :=
  ⟨c4_threshold.1 120 (by decide), c4_threshold.2.1 250 (by decide)⟩

/-- C5 counterexample: at scrollTop = 2800 on a 1280-wide (six-column)
container, the source positions the slice at offsetY = startIndex *
ITEM_HEIGHT = 5 * 280 = 1400, while the claimed formula (the row containing
startIndex times the row height) yields 0, so the claimed positioning
invariant fails. -/
theorem c5_counterexample :
    offsetY 2800 = 1400 ∧ specOffsetY (gridCols 1280) 2800 = 0 ∧
    ¬ (offsetY 2800 = specOffsetY (gridCols 1280) 2800) := by
  decide

/-- C5 amended: the materialized subset is absolutely positioned at
offsetY = startIndex * rowHeight, where startIndex is the first materialized
ITEM index (not the row containing it); the scroll container reports a total
scrollable height of totalRows * rowHeight + (totalRows - 1) * gap with
totalRows = ceil(totalItems / columns), the columns and gap being those of the
responsive breakpoint table. -/
theorem c5_offset_and_height :
    (∀ s : Int, offsetY s = startIndex s * ITEM_HEIGHT) ∧
    (∀ n w : Nat, totalHeight n w = specTotalHeight n (gridCols w) gridGap) :=
  ⟨fun _ => rfl, fun _ _ => rfl⟩

/-- C6 confirmed: the materialized window satisfies
startIndex = max(0, floor(scrollTop / rowHeight) - buffer) and
endIndex = min(totalItems, ceil((scrollTop + viewportHeight) / rowHeight) +
buffer) with buffer = 5 and rowHeight = 280 (the third conjunct pins
intCeilDiv at 280 as the exact ceiling of the division); at totalItems = 1000,
scrollTop = 2800, viewportHeight = 800 the indices are the hand-computed
values 5 and 18. -/
theorem c6_window :
    (∀ s : Int, startIndex s = max 0 (s / ITEM_HEIGHT - BUFFER_SIZE)) ∧
    (∀ (n : Nat) (s h : Int),
      endIndex n s h = min (n : Int) (intCeilDiv (s + h) ITEM_HEIGHT + BUFFER_SIZE)) ∧
    (∀ a : Int, a ≤ 280 * intCeilDiv a 280 ∧ 280 * intCeilDiv a 280 < a + 280) ∧
    startIndex 2800 = 5 ∧ endIndex 1000 2800 800 = 18 := by
  refine ⟨fun _ => rfl, fun _ _ _ => rfl, fun a => ?_, by decide, by decide⟩
  unfold intCeilDiv
  constructor <;> omega

/-- C1 counterexample: two overlapping simple searches, the first resolving
after the second.  After start 0, start 0 is superseded by start 1 (its id is
in abortedIds), and the visible list holds the results of request 1; the superseded
request 0 then resolves and overwrites the visible list with its own results,
because none of the supabase calls of simpleSearch carries the abort signal.  This
refutes the claim that the resolution of a superseded request never mutates the
visible result list. -/
theorem c1_counterexample :
    (runTrace
        [Request.simple 1 (SimpleOutcome.rpcOk [{ total_count := 1, file := 10 }]),
         Request.simple 1 (SimpleOutcome.rpcOk [{ total_count := 1, file := 20 }])]
        [Ev.start 0, Ev.start 1, Ev.resolve 1]).abortedIds.contains 0 = true ∧
    (runTrace
        [Request.simple 1 (SimpleOutcome.rpcOk [{ total_count := 1, file := 10 }]),
         Request.simple 1 (SimpleOutcome.rpcOk [{ total_count := 1, file := 20 }])]
        [Ev.start 0, Ev.start 1, Ev.resolve 1]).vis.files = [20] ∧
    (runTrace
        [Request.simple 1 (SimpleOutcome.rpcOk [{ total_count := 1, file := 10 }]),
         Request.simple 1 (SimpleOutcome.rpcOk [{ total_count := 1, file := 20 }])]
        [Ev.start 0, Ev.start 1, Ev.resolve 1, Ev.resolve 0]).vis.files = [10] := by
  decide

/-- C1 amended: only the ranked path is protected, and only partially.  When a
superseded request took the ranked path, its resolution leaves the result
list, error and pagination untouched and only clears the loading flag (its
fetch carries the abort signal, so it settles as an AbortError that the catch
discards and only the finally runs); a superseded simple-path request is not
discarded at all and can overwrite every piece of visible state. -/
theorem c1_superseded_ranked_discarded (reqs : List Request) (rs : RunState)
    (i page : Nat) (out : RankedOutcome)
    (hreq : reqs.get? i = some (Request.ranked page out))
    (hab : rs.abortedIds.contains i = true) :
    (stepEv reqs rs (Ev.resolve i)).vis = { rs.vis with loading := false } ∧
    (stepEv reqs rs (Ev.resolve i)).vis.files = rs.vis.files ∧
    (stepEv reqs rs (Ev.resolve i)).vis.error = rs.vis.error ∧
    (stepEv reqs rs (Ev.resolve i)).vis.pagination = rs.vis.pagination := by
  have hget : reqs[i]? = some (Request.ranked page out) := by simpa using hreq
  have hmem : i ∈ rs.abortedIds := by simpa using hab
  simp [stepEv, hget, hmem, rankedResolveWrites, applyWrites, applyWrite]

/-- C1 witness: the amended discard property applied to a concrete superseded
ranked request whose response would otherwise have replaced the file list. -/
theorem c1_witness :
    (stepEv
        [Request.ranked 1 (RankedOutcome.resp
          { ok := true, results := some [5], pagination := some defaultRankedPagination,
            errMsg := none })]
        { vis := { files := [9], loading := true, error := none,
                   pagination := initialPagination },
          abortedIds := [0], current := some 1 }
        (Ev.resolve 0)).vis
      = { files := [9], loading := false, error := none, pagination := initialPagination } :=
  (c1_superseded_ranked_discarded
    [Request.ranked 1 (RankedOutcome.resp
      { ok := true, results := some [5], pagination := some defaultRankedPagination,
        errMsg := none })]
    { vis := { files := [9], loading := true, error := none, pagination := initialPagination },
      abortedIds := [0], current := some 1 }
    0 1
    (RankedOutcome.resp
      { ok := true, results := some [5], pagination := some defaultRankedPagination,
        errMsg := none })
    rfl rfl).1

/-- C2 counterexample: from a state showing page 1 with list [10], hasNext
true and nothing loading, a completed loadMore on the simple path with the
next page resolving to the single file 11 leaves the list [11], not the
appended [10, 11] that the claim requires: setFiles(results) replaces the
list. -/
theorem c2_counterexample :
    (loadMore
        { files := [10], loading := false, error := none,
          pagination := { page := 1, totalPages := 2, totalCount := 21,
                          hasNext := true, hasPrev := false } }
        1 (SimpleOutcome.rpcOk [{ total_count := 21, file := 11 }])
        (RankedOutcome.netErr "x")).files = [11] ∧
    ¬ ((loadMore
        { files := [10], loading := false, error := none,
          pagination := { page := 1, totalPages := 2, totalCount := 21,
                          hasNext := true, hasPrev := false } }
        1 (SimpleOutcome.rpcOk [{ total_count := 21, file := 11 }])
        (RankedOutcome.netErr "x")).files = [10] ++ [11]) := by
  decide

/-- C2 amended: when pagination.hasNext holds and no request is loading, a
completed loadMore fetches page + 1 on the path selected by the query length
and REPLACES the file list with exactly the items of that page: on the simple
path (query length below 3) the new list is the RPC rows and the displayed
page advances to page + 1; on the ranked path (query length 3 or more) the
new list is the results array of the server response and the stored
pagination is the pagination object of that response verbatim.  When hasNext
is false or a request is loading, loadMore is a no-op for every query length
and every outcome. -/
theorem c2_loadMore_replaces (st : SearchState) (qLen : Nat) (rows : List RpcRow)
    (r : RankedResponse) (outS : SimpleOutcome) (outR : RankedOutcome)
    (hn : st.pagination.hasNext = true) (hl : st.loading = false) :
    (qLen < 3 → rows ≠ [] →
      (loadMore st qLen (SimpleOutcome.rpcOk rows) outR).files = rows.map RpcRow.file ∧
      (loadMore st qLen (SimpleOutcome.rpcOk rows) outR).pagination.page
        = st.pagination.page + 1) ∧
    (3 ≤ qLen → r.ok = true →
      (loadMore st qLen outS (RankedOutcome.resp r)).files = r.results.getD [] ∧
      (loadMore st qLen outS (RankedOutcome.resp r)).pagination
        = r.pagination.getD defaultRankedPagination) ∧
    (∀ (st' : SearchState) (q : Nat) (oS : SimpleOutcome) (oR : RankedOutcome),
      st'.pagination.hasNext = false ∨ st'.loading = true →
        loadMore st' q oS oR = st') := by
  refine ⟨fun hq hrows => ?_, fun hq hok => ?_, ?_⟩
  · obtain ⟨a, l, rfl⟩ : ∃ a l, rows = a :: l := by
      cases rows with
      | nil => exact absurd rfl hrows
      | cons a l => exact ⟨a, l, rfl⟩
    constructor <;> simp [loadMore, hn, hl, hq, searchStartWrites, simpleResolveWrites,
      applyWrites, applyWrite]
  · constructor <;> simp [loadMore, hn, hl, Nat.not_lt.mpr hq, searchStartWrites,
      rankedResolveWrites, hok, applyWrites, applyWrite]
  · intro st' q oS oR h
    rcases h with h | h <;> simp [loadMore, h]

/-- C2 witness: the amended loadMore behaviour at the concrete page-1 state of
the counterexample, on the simple path (query length 1) and on the ranked
path (query length 3, server answering page 2). -/
theorem c2_witness :
    (loadMore
        { files := [10], loading := false, error := none,
          pagination := { page := 1, totalPages := 2, totalCount := 21,
                          hasNext := true, hasPrev := false } }
        1 (SimpleOutcome.rpcOk [{ total_count := 21, file := 11 }])
        (RankedOutcome.netErr "x")).files = [11] ∧
    (loadMore
        { files := [10], loading := false, error := none,
          pagination := { page := 1, totalPages := 2, totalCount := 21,
                          hasNext := true, hasPrev := false } }
        1 (SimpleOutcome.rpcOk [{ total_count := 21, file := 11 }])
        (RankedOutcome.netErr "x")).pagination.page = 2 ∧
    (loadMore
        { files := [10], loading := false, error := none,
          pagination := { page := 1, totalPages := 2, totalCount := 21,
                          hasNext := true, hasPrev := false } }
        3 (SimpleOutcome.fallbackErr "unused")
        (RankedOutcome.resp
          { ok := true, results := some [12],
            pagination := some { page := 2, totalPages := 2, totalCount := 21,
                                 hasNext := false, hasPrev := true },
            errMsg := none })).files = [12] ∧
    (loadMore
        { files := [10], loading := false, error := none,
          pagination := { page := 1, totalPages := 2, totalCount := 21,
                          hasNext := true, hasPrev := false } }
        3 (SimpleOutcome.fallbackErr "unused")
        (RankedOutcome.resp
          { ok := true, results := some [12],
            pagination := some { page := 2, totalPages := 2, totalCount := 21,
                                 hasNext := false, hasPrev := true },
            errMsg := none })).pagination
      = { page := 2, totalPages := 2, totalCount := 21,
          hasNext := false, hasPrev := true } := by
  have hs := c2_loadMore_replaces
    { files := [10], loading := false, error := none,
      pagination := { page := 1, totalPages := 2, totalCount := 21,
                      hasNext := true, hasPrev := false } }
    1 [{ total_count := 21, file := 11 }]
    { ok := true, results := some [12],
      pagination := some { page := 2, totalPages := 2, totalCount := 21,
                           hasNext := false, hasPrev := true }, errMsg := none }
    (SimpleOutcome.fallbackErr "unused") (RankedOutcome.netErr "x") rfl rfl
  have hr := c2_loadMore_replaces
    { files := [10], loading := false, error := none,
      pagination := { page := 1, totalPages := 2, totalCount := 21,
                      hasNext := true, hasPrev := false } }
    3 [{ total_count := 21, file := 11 }]
    { ok := true, results := some [12],
      pagination := some { page := 2, totalPages := 2, totalCount := 21,
                           hasNext := false, hasPrev := true }, errMsg := none }
    (SimpleOutcome.fallbackErr "unused") (RankedOutcome.netErr "x") rfl rfl
  exact ⟨(hs.1 (by decide) (by decide)).1, (hs.1 (by decide) (by decide)).2,
         (hr.2.1 (by decide) rfl).1, (hr.2.1 (by decide) rfl).2⟩

/-- C3 counterexample: the initial pagination state of useHybridSearch has
totalCount = 0 but totalPages = 1, violating totalPages = ceil(totalCount/20),
so the law does not hold for every pagination state held by the hook. -/
theorem c3_counterexample :
    initialPagination.totalCount = 0 ∧ initialPagination.totalPages = 1 ∧
    ¬ (initialPagination.totalPages = ceilDivNat initialPagination.totalCount 20) := by
  decide

/-- C3 amended: every pagination state written by a completed simpleSearch
satisfies totalPages = ceil(totalCount / 20) and hasNext = (page < totalPages)
(an error outcome leaves pagination untouched), and the pagination object the
ranked search API route builds at the page size 20 used by the hook satisfies
the same law; the INITIAL state, however, only satisfies the hasNext half: it
holds totalPages = 1 with totalCount = 0. -/
theorem c3_pagination_law (s : SearchState) (page : Nat) (out : SimpleOutcome) :
    ((applyWrites s (simpleResolveWrites page out)).pagination = s.pagination ∨
      paginationLawful (applyWrites s (simpleResolveWrites page out)).pagination) ∧
    (∀ (p : Nat) (rows : List RpcRow), paginationLawful (searchRoutePagination p 20 rows)) ∧
    initialPagination.hasNext
      = decide (initialPagination.page < initialPagination.totalPages) := by
  refine ⟨?_, ?_, by decide⟩
  · cases out with
    | rpcOk rows =>
      cases rows with
      | nil =>
        right
        simp [simpleResolveWrites, applyWrites, applyWrite, paginationLawful, ceilDivNat]
      | cons a l =>
        right
        simp [simpleResolveWrites, applyWrites, applyWrite, paginationLawful]
    | fallbackOk rows count =>
      right
      simp [simpleResolveWrites, applyWrites, applyWrite, paginationLawful]
    | fallbackErr msg =>
      left
      simp [simpleResolveWrites, applyWrites, applyWrite]
  · intro p rows
    cases rows with
    | nil => simp [searchRoutePagination, paginationLawful, ceilDivNat]
    | cons a l => simp [searchRoutePagination, paginationLawful]

/-- C7 confirmed: the debounced search body routes on query length: strictly
below 3 characters it takes the simple path, at 3 or more the ranked path,
and the two are mutually exclusive, so exactly one downstream path is taken
per surviving call. -/
theorem c7_routing (q : String) :
    (q.length < 3 → route q = SearchPath.simple) ∧
    (3 ≤ q.length → route q = SearchPath.ranked) ∧
    ¬ (route q = SearchPath.simple ∧ route q = SearchPath.ranked) := by
  refine ⟨fun h => ?_, fun h => ?_, fun hc => ?_⟩
  · simp [route, h]
  · simp [route, Nat.not_lt.mpr h]
  · rw [hc.1] at hc
    exact SearchPath.noConfusion hc.2

/-- C7 witness: the routing boundary at the concrete queries of length 2
and 3. -/
theorem c7_witness : route "ab" = SearchPath.simple ∧ route "abc" = SearchPath.ranked :=
  ⟨(c7_routing "ab").1 (by decide), (c7_routing "abc").2.1 (by decide)⟩

/-- Looking up the key just assigned in the cache object yields the new
entry. -/
theorem cacheLookup_cacheInsert (c : List (String × CacheEntry)) (k : String)
    (v : CacheEntry) : cacheLookup (cacheInsert c k v) k = some v := by
  simp [cacheLookup, cacheInsert, List.find?]

/-- C8 confirmed: for a record whose grouping key holds a cache entry stamped
t0, a prefetch at a time now with now - t0 below the five-minute duration
returns exactly the cached list without issuing a store call or changing the
cache, and a prefetch with now - t0 above the duration issues a fetch, returns
the fresh rows and replaces the entry with them under the current stamp. -/
theorem c8_cache_ttl (cache : List (String × CacheEntry)) (file : PFile)
    (now t0 : Nat) (d rows : List Nat)
    (hslug : jsStrFalsy file.product_slug = false)
    (hbrand : (file.brand == "") = false)
    (hkey : cacheLookup cache (file.product_slug.getD "" ++ "-" ++ file.brand)
      = some { data := d, timestamp := t0 }) :
    (∀ out : FetchOutcome, now - t0 < PREFETCH_CACHE_DURATION →
      prefetchSiblingFiles cache file now out
        = { returned := some d, cache := cache, fetched := false }) ∧
    (PREFETCH_CACHE_DURATION < now - t0 →
      (prefetchSiblingFiles cache file now (FetchOutcome.ok rows)).fetched = true ∧
      (prefetchSiblingFiles cache file now (FetchOutcome.ok rows)).returned = some rows ∧
      cacheLookup (prefetchSiblingFiles cache file now (FetchOutcome.ok rows)).cache
          (file.product_slug.getD "" ++ "-" ++ file.brand)
        = some { data := rows, timestamp := now }) := by
  constructor
  · intro out hfresh
    simp [prefetchSiblingFiles, hslug, hbrand, hkey, hfresh]
  · intro hstale
    have hnotlt : ¬ (now - t0 < PREFETCH_CACHE_DURATION) := by omega
    simp [prefetchSiblingFiles, hslug, hbrand, hkey, hnotlt, prefetchFetch,
      cacheLookup_cacheInsert]

/-- C8 witness: the concrete five-minute boundary of the spec: an entry
stamped at t0 = 0 is served at 299 seconds and re-fetched, with its entry
replaced, at 301 seconds. -/
theorem c8_witness :
    prefetchSiblingFiles [("p-b", { data := [7], timestamp := 0 })]
        { sha256 := 0, brand := "b", product_slug := some "p" } 299000
        (FetchOutcome.ok [8])
      = { returned := some [7],
          cache := [("p-b", { data := [7], timestamp := 0 })], fetched := false } ∧
    (prefetchSiblingFiles [("p-b", { data := [7], timestamp := 0 })]
        { sha256 := 0, brand := "b", product_slug := some "p" } 301000
        (FetchOutcome.ok [8])).fetched = true ∧
    cacheLookup
        (prefetchSiblingFiles [("p-b", { data := [7], timestamp := 0 })]
          { sha256 := 0, brand := "b", product_slug := some "p" } 301000
          (FetchOutcome.ok [8])).cache
        ((some "p").getD "" ++ "-" ++ "b")
      = some { data := [8], timestamp := 301000 } := by
  have h299 := c8_cache_ttl [("p-b", { data := [7], timestamp := 0 })]
    { sha256 := 0, brand := "b", product_slug := some "p" } 299000 0 [7] [8]
    (by decide) (by decide) (by decide)
  have h301 := c8_cache_ttl [("p-b", { data := [7], timestamp := 0 })]
    { sha256 := 0, brand := "b", product_slug := some "p" } 301000 0 [7] [8]
    (by decide) (by decide) (by decide)
  exact ⟨h299.1 (FetchOutcome.ok [8]) (by decide),
         (h301.2 (by decide)).1, (h301.2 (by decide)).2.2⟩

/-- C10 confirmed: a record lacking a (truthy) product_slug or a (truthy)
brand makes prefetchSiblingFiles return immediately: nothing is returned, no
store call is issued and the cache is unchanged; both trigger modes delegate
to the same function, so only records carrying both grouping attributes can
populate the cache. -/
theorem c10_missing_attrs_noop (cache : List (String × CacheEntry)) (file : PFile)
    (now : Nat) (out : FetchOutcome)
    (h : jsStrFalsy file.product_slug = true ∨ file.brand = "") :
    prefetchSiblingFiles cache file now out
      = { returned := none, cache := cache, fetched := false } ∧
    prefetchOnHover cache file now out
      = { returned := none, cache := cache, fetched := false } ∧
    prefetchOnFocusFire cache file now out
      = { returned := none, cache := cache, fetched := false } := by
  have hguard : (jsStrFalsy file.product_slug || (file.brand == "")) = true := by
    rcases h with h | h
    · simp [h]
    · simp [h]
  refine ⟨?_, ?_, ?_⟩ <;> simp [prefetchOnHover, prefetchOnFocusFire,
    prefetchSiblingFiles, hguard]

/-- C10 witness: the no-op on a concrete record with an absent product_slug. -/
theorem c10_witness :
    prefetchSiblingFiles [] { sha256 := 0, brand := "b", product_slug := none } 0
        (FetchOutcome.ok [3])
      = { returned := none, cache := [], fetched := false } :=
  (c10_missing_attrs_noop [] { sha256 := 0, brand := "b", product_slug := none } 0
    (FetchOutcome.ok [3]) (Or.inl rfl)).1

/-- In dry-run mode the scan accumulates no update rows. -/
theorem scanFiles_dryRun_updates (now : Nat) (l : List (LHFile × CheckOutcome)) :
    (scanFiles now true l).2 = [] := by
  induction l with
  | nil => rfl
  | cons fo rest ih => simp [scanFiles, ih]

/-- Outside dry-run mode the update rows are exactly the classifications,
projected onto identity, verdict and timestamp. -/
theorem scanFiles_updates_eq (now : Nat) (l : List (LHFile × CheckOutcome)) :
    (scanFiles now false l).2
      = (scanFiles now false l).1.map
          (fun c => { sha256 := c.sha256, link_health := c.link_health,
                      updated_at := now : UpdateRow }) := by
  induction l with
  | nil => rfl
  | cons fo rest ih => simp [scanFiles, ih]

/-- C9 counterexample: a dry-run invocation that finds no eligible files takes
the early return, whose response carries no per-URL classification list, so
the claim that every dry-run response includes the full classification list
fails on the empty batch. -/
theorem c9_counterexample :
    (POSTLinkHealth [] true 0 true).1 = LHResponse.emptyBatch ∧
    resultsField (POSTLinkHealth [] true 0 true).1 = none ∧
    (POSTLinkHealth [] true 0 true).2 = [] := by
  decide

/-- C9 amended: for every run that finds at least one eligible file, dry-run
mode issues no upsert and its response carries the full per-URL classification
list, while non-dry-run mode issues exactly one batched upsert carrying one
row per classification after the whole scan and omits the list from the
response (and when that single upsert is refused by the store the run reports
the 500 failure).  A run that finds no eligible files returns early with zero
counters, no list and no write in either mode. -/
theorem c9_dryRun_effects (files : List (LHFile × CheckOutcome)) (now : Nat)
    (upsertOk : Bool) (h : files ≠ []) :
    ((POSTLinkHealth files true now upsertOk).2 = [] ∧
      resultsField (POSTLinkHealth files true now upsertOk).1
        = some (scanFiles now true files).1) ∧
    ((POSTLinkHealth files false now upsertOk).2 = [(scanFiles now false files).2] ∧
      resultsField (POSTLinkHealth files false now upsertOk).1 = none ∧
      (scanFiles now false files).2
        = (scanFiles now false files).1.map
            (fun c => { sha256 := c.sha256, link_health := c.link_health,
                        updated_at := now : UpdateRow })) ∧
    (upsertOk = false →
      (POSTLinkHealth files false now upsertOk).1
        = LHResponse.storeFailure 500 "Failed to update files") := by
  obtain ⟨f, fs, rfl⟩ : ∃ f fs, files = f :: fs := by
    cases files with
    | nil => exact absurd rfl h
    | cons f fs => exact ⟨f, fs, rfl⟩
  have hdry : (scanFiles now true (f :: fs)).2 = [] :=
    scanFiles_dryRun_updates now (f :: fs)
  have hupd : (scanFiles now false (f :: fs)).2
      = { sha256 := f.1.sha256,
          link_health := if (checkLinkHealth f.1.source_url f.2).1 then "ok" else "broken",
          updated_at := now } :: (scanFiles now false fs).2 := by
    simp [scanFiles]
  refine ⟨⟨?_, ?_⟩, ⟨?_, ?_, scanFiles_updates_eq now (f :: fs)⟩, ?_⟩
  · simp [POSTLinkHealth, hdry]
  · simp [POSTLinkHealth, hdry, resultsField]
  · simp [POSTLinkHealth, hupd]
    cases upsertOk <;> simp
  · simp [POSTLinkHealth, hupd]
    cases upsertOk <;> simp [resultsField]
  · intro hup
    subst hup
    simp [POSTLinkHealth, hupd]

/-- C9 witness: the amended dry-run policy at a concrete one-file batch whose
HEAD request answers 200. -/
theorem c9_witness :
    (POSTLinkHealth [({ sha256 := 1, source_url := "u" }, CheckOutcome.status 200)]
        true 0 true).2 = [] ∧
    (POSTLinkHealth [({ sha256 := 1, source_url := "u" }, CheckOutcome.status 200)]
        false 0 true).2
      = [(scanFiles 0 false
          [({ sha256 := 1, source_url := "u" }, CheckOutcome.status 200)]).2] := by
  have h := c9_dryRun_effects
    [({ sha256 := 1, source_url := "u" }, CheckOutcome.status 200)] 0 true
    (by decide)
  exact ⟨h.1.1, h.2.1.1⟩

end ModelWebapp
